import Mathlib

/-!
Shallow embedding of the kstrace command layer (src/cmd/cmd.go) and the
pieces of its environment the code observably depends on.

The file models:
- the resolved target pods and the resource visitor (processResources),
- the flag validation logic (Validate), including a faithful model of the
  Go standard library function time.ParseDuration it calls,
- the orchestration entry point (Run) as a trace-producing function: Go
  defer statements are modelled with an explicit defer stack, and the
  deferred Stop / Cleanup / CleanupNamespace calls are emitted as events
  in the order the Go runtime would execute them,
- the RunE closure of the cobra command, which sequences Complete,
  Validate and Run.

External collaborators (the kstrace package functions CreateNamespace,
CleanupNamespace, KStracer.Start / Stop / Cleanup, and the builder that
yields resource infos) are not in the repository sources; their results
are inputs to the model (RunEnv, VisitItem), and only the command-layer
control flow around them is embedded.

Machine integers: Go durations are int64 nanoseconds; the parser model
tracks the uint64 accumulator as a Nat with the exact overflow guards of
the Go source and produces the final signed duration as an Int.
-/

set_option autoImplicit false

namespace Kstrace

/-- Model of corev1.Container restricted to the fields the command reads. -/
structure Container where
  name : String
deriving DecidableEq, Repr

/-- Model of corev1.Pod restricted to the fields the command reads: the pod
name, its namespace, the node it runs on and its container list
(Spec.Containers). -/
structure Pod where
  name : String
  podNamespace : String
  nodeName : String
  containers : List Container
deriving DecidableEq, Repr

/-- Errors produced by the embedded code paths. Constructors mirror the
distinct fmt.Errorf calls in cmd.go and the error kinds of
time.ParseDuration; external errors (from the kstrace package or the
cluster) are carried opaquely as strings. -/
inductive GoError where
  | noTargetPod
  | multipleTargetsConsole
  | multipleContainersConsole (podName : String)
  | invalidDuration (orig : String)
  | missingUnit (orig : String)
  | unknownUnit (unit : String) (orig : String)
  | unsupportedKind (gvk : String)
  | external (msg : String)
deriving DecidableEq, Repr

/-! ### time.ParseDuration

Modelled from the Go standard library (src/time/format.go), which the
repository calls but does not contain. The uint64 accumulators are Nats
guarded by the same comparisons against 2^63 the Go code performs, so no
wraparound can be missed. The only deliberate approximation: Go accumulates
the fractional part through float64 arithmetic; here the same quantity is
computed with exact integer arithmetic (f * unit / scale). No claim
exercises fractional durations. -/

/-- Decide whether a character is an ASCII digit, as the Go parser does. -/
def isDigitChar (c : Char) : Bool := 48 ≤ c.toNat && c.toNat ≤ 57

/-- Modelled from the Go helper leadingInt: consume leading digits,
accumulating into x with the Go overflow guards; an overflow is an error. -/
def leadingIntAux (x : Nat) : List Char → Except Unit (Nat × List Char)
  | [] => Except.ok (x, [])
  | c :: rest =>
    if isDigitChar c then
      if x > 2 ^ 63 / 10 then Except.error ()
      else
        let x2 := x * 10 + (c.toNat - 48)
        if x2 > 2 ^ 63 then Except.error ()
        else leadingIntAux x2 rest
    else Except.ok (x, c :: rest)

/-- Modelled from the Go helper leadingFraction: consume digits after the
decimal point; on overflow the remaining digits are discarded (they are
insignificant) rather than reported as an error. Returns the digits value,
the scale (10 to the number of significant digits) and the rest. -/
def leadingFractionAux (x : Nat) (scale : Nat) (overflow : Bool) :
    List Char → Nat × Nat × List Char
  | [] => (x, scale, [])
  | c :: rest =>
    if isDigitChar c then
      if overflow then leadingFractionAux x scale overflow rest
      else if x > (2 ^ 63 - 1) / 10 then leadingFractionAux x scale true rest
      else
        let y := x * 10 + (c.toNat - 48)
        if y > 2 ^ 63 then leadingFractionAux x scale true rest
        else leadingFractionAux y (scale * 10) overflow rest
    else (x, scale, c :: rest)

/-- Split off the unit token: the maximal run of characters that are neither
digits nor a decimal point, as in the unit-consuming loop of ParseDuration. -/
def spanUnit : List Char → List Char × List Char
  | [] => ([], [])
  | c :: rest =>
    if c = '.' || isDigitChar c then ([], c :: rest)
    else
      let pr := spanUnit rest
      (c :: pr.1, pr.2)

/-- The unit table of time.ParseDuration, in nanoseconds. -/
def unitMap : String → Option Nat
  | "ns" => some 1
  | "us" => some 1000
  | "µs" => some 1000
  | "μs" => some 1000
  | "ms" => some 1000000
  | "s" => some 1000000000
  | "m" => some 60000000000
  | "h" => some 3600000000000
  | _ => none

/-- The main segment loop of ParseDuration. Each pass consumes one
number-plus-unit segment; d is the accumulated duration in nanoseconds.
The fuel argument only serves termination: every reachable pass consumes at
least the (non-empty) unit token, so fuel equal to the remaining length
plus one never runs out. -/
def parseDurationLoop (orig : String) : Nat → Nat → List Char → Except GoError Nat
  | 0, _, _ => Except.error (GoError.invalidDuration orig)
  | _ + 1, d, [] => Except.ok d
  | fuel + 1, d, c :: cs =>
    if !(c = '.' || isDigitChar c) then Except.error (GoError.invalidDuration orig)
    else
      match leadingIntAux 0 (c :: cs) with
      | Except.error _ => Except.error (GoError.invalidDuration orig)
      | Except.ok (v, s1) =>
        let pre : Bool := s1.length != (c :: cs).length
        let fr : Nat × Nat × List Char × Bool :=
          match s1 with
          | '.' :: s1t =>
            let r := leadingFractionAux 0 1 false s1t
            (r.1, r.2.1, r.2.2, decide (r.2.2.length ≠ s1t.length))
          | _ => (0, 1, s1, false)
        let f := fr.1
        let scale := fr.2.1
        let s2 := fr.2.2.1
        let post := fr.2.2.2
        if !pre && !post then Except.error (GoError.invalidDuration orig)
        else
          let us := spanUnit s2
          if us.1 = [] then Except.error (GoError.missingUnit orig)
          else
            match unitMap (String.mk us.1) with
            | none => Except.error (GoError.unknownUnit (String.mk us.1) orig)
            | some unit =>
              if v > 2 ^ 63 / unit then Except.error (GoError.invalidDuration orig)
              else
                let v1 := v * unit
                let v2 := if 0 < f then v1 + f * unit / scale else v1
                if 0 < f && v2 > 2 ^ 63 then Except.error (GoError.invalidDuration orig)
                else
                  let d2 := d + v2
                  if d2 > 2 ^ 63 then Except.error (GoError.invalidDuration orig)
                  else parseDurationLoop orig fuel d2 us.2

/-- Modelled from the Go standard library time.ParseDuration: optional sign,
the special case of a bare zero, then number-unit segments. The result is
the signed duration in nanoseconds. -/
def ParseDuration (s : String) : Except GoError Int :=
  let cs0 := s.toList
  let signed : Bool × List Char :=
    match cs0 with
    | c :: rest =>
      if c = '-' then (true, rest)
      else if c = '+' then (false, rest)
      else (false, cs0)
    | [] => (false, cs0)
  let neg := signed.1
  let cs := signed.2
  if cs = ['0'] then Except.ok 0
  else if cs = [] then Except.error (GoError.invalidDuration s)
  else
    match parseDurationLoop s (cs.length + 1) 0 cs with
    | Except.error e => Except.error e
    | Except.ok d =>
      if neg then Except.ok (-(d : Int))
      else if d > 2 ^ 63 - 1 then Except.error (GoError.invalidDuration s)
      else Except.ok (d : Int)

/-! ### processResources and Validate -/

/-- A cluster object handed to the visitor, after the builder resolved a
name argument: either a Pod or an object of some other group-version-kind.
The design-note wording of the spec (a tagged variant with an explicit
unsupported case) matches the Go type switch over info.Object. -/
inductive ResolvedObj where
  | pod (p : Pod)
  | other (gvk : String)
deriving DecidableEq, Repr

/-- One step of the builder visit: either a resolved object, or an error the
upstream resolution machinery passes to the visitor as its err argument. -/
inductive VisitItem where
  | obj (o : ResolvedObj)
  | visitErr (e : GoError)
deriving DecidableEq, Repr

/-- Whether a visit item is a resolved object (and not an upstream error). -/
def VisitItem.isObj : VisitItem → Bool
  | VisitItem.obj _ => true
  | VisitItem.visitErr _ => false

/-- The visitor loop of processResources: pods are appended to the slice;
the first upstream error or non-Pod object aborts the visit with an error.
Mirrors r.Visit in cmd.go, whose visitor returns an error to stop. -/
def visitAll (acc : List Pod) : List VisitItem → List Pod × Option GoError
  | [] => (acc, none)
  | item :: rest =>
    match item with
    | VisitItem.visitErr e => (acc, some e)
    | VisitItem.obj (ResolvedObj.pod p) => visitAll (acc ++ [p]) rest
    | VisitItem.obj (ResolvedObj.other gvk) => (acc, some (GoError.unsupportedKind gvk))

/-- Modelled from processResources in cmd.go: run the visitor; on error the
accumulated pod slice is discarded and (nil, err) is returned, mirroring
the Go pair of return values. -/
def processResources (items : List VisitItem) : List Pod × Option GoError :=
  match visitAll [] items with
  | (_, some e) => ([], some e)
  | (pods, none) => (pods, none)

/-- The flag fields of KubeStraceCommand that Validate and Run read. -/
structure KubeStraceCmd where
  traceImage : String
  socketPath : String
  traceTimeoutStr : String
  outputDirectory : String
deriving DecidableEq, Repr

/-- Modelled from Validate in cmd.go: resolve the targets, propagate a
resolution error unchanged, then check the three flag conditions in source
order, then parse the trace timeout. On success it returns the state Run
reads: the target pod list and the parsed timeout. -/
def Validate (kCmd : KubeStraceCmd) (items : List VisitItem) :
    Except GoError (List Pod × Int) :=
  match processResources items with
  | (_, some e) => Except.error e
  | (targetPods, none) =>
    match targetPods with
    | [] => Except.error GoError.noTargetPod
    | p :: rest =>
      if 1 < (p :: rest).length ∧ kCmd.outputDirectory = "-" then
        Except.error GoError.multipleTargetsConsole
      else if 1 < p.containers.length ∧ kCmd.outputDirectory = "-" then
        Except.error (GoError.multipleContainersConsole p.name)
      else
        match ParseDuration kCmd.traceTimeoutStr with
        | Except.error e => Except.error e
        | Except.ok d => Except.ok (p :: rest, d)

/-! ### Tracer construction

The construction loop of Run is

  for _, targetPod := range kCmd.targetPods {
    tracer := kstrace.NewKStracer(..., &targetPod, ns.Name, ...)
    ...
  }

The module predates the Go 1.22 change to range-loop variables (its go
directive is older), so targetPod is ONE variable for the whole loop and
the pointer &targetPod passed to every NewKStracer call is the same
address every iteration; after the loop that cell holds a copy of the last
element of the range. The embedding makes the pointer explicit: addresses
are Nats, the loop-variable cell has address loopVarAddr, and the heap
after the construction loop maps it to the last target pod. -/

/-- Model of kstrace.KStracer restricted to the constructor arguments the
command supplies; the target pod is held by reference (an address). -/
structure KStracer where
  traceImage : String
  targetRef : Nat
  nsName : String
  socketPath : String
  traceTimeout : Int
  outputDirectory : String
deriving DecidableEq, Repr

/-- The address of the single range-loop variable targetPod. -/
def loopVarAddr : Nat := 0

/-- Modelled from the kstrace.NewKStracer call: record the arguments the
command passes (cluster handles omitted). -/
def NewKStracer (traceImage : String) (targetRef : Nat) (nsName : String)
    (socketPath : String) (traceTimeout : Int) (outputDirectory : String) :
    KStracer :=
  ⟨traceImage, targetRef, nsName, socketPath, traceTimeout, outputDirectory⟩

/-- The tracer construction loop of Run: one NewKStracer call per target
pod, every call receiving the address of the shared loop variable. -/
def runConstruct (kCmd : KubeStraceCmd) (traceTimeout : Int) (nsName : String)
    (pods : List Pod) : List KStracer :=
  pods.map fun _ =>
    NewKStracer kCmd.traceImage loopVarAddr nsName kCmd.socketPath traceTimeout
      kCmd.outputDirectory

/-- The heap after the construction loop: the loop-variable cell holds a
copy of the last target pod; no other address holds a pod. -/
def postLoopHeap (pods : List Pod) : Nat → Option Pod :=
  fun a => if a = loopVarAddr then pods.getLast? else none

/-- The pod a tracer references at the time the start loop calls its Start:
the content of the cell its target pointer refers to, after the
construction loop has finished. -/
def tracerTargetAtStart (pods : List Pod) (t : KStracer) : Option Pod :=
  postLoopHeap pods t.targetRef

/-! ### Run

Run calls external kstrace-package functions. Their results are inputs
(RunEnv); Run itself is embedded as a function producing the list of calls
it makes, in order (the trace), plus its outcome. Go defer statements are
modelled by an explicit stack of pending events, emitted when the function
returns, last registered first, exactly as the Go runtime unwinds them. -/

/-- Results of the external calls Run makes. nsCreate is the pair returned
by kstrace.CreateNamespace: the namespace object (none models a nil
pointer) and the error. The three per-tracer functions give the results of
Start, Stop and Cleanup for the tracer at each position, and cleanupNsErr
the result of kstrace.CleanupNamespace. -/
structure RunEnv where
  nsCreate : Option String × Option GoError
  startErr : Nat → Option GoError
  stopErr : Nat → Option GoError
  cleanupErr : Nat → Option GoError
  cleanupNsErr : Option GoError

/-- Observable calls Run makes, in program order, each with the result the
environment assigns to it. -/
inductive Event where
  | createNamespace (nsName : Option String) (err : Option GoError)
  | newTracer (i : Nat) (t : KStracer)
  | startTracer (i : Nat) (err : Option GoError)
  | stopTracer (i : Nat) (err : Option GoError)
  | cleanupTracer (i : Nat) (err : Option GoError)
  | cleanupNamespace (nsName : String) (err : Option GoError)
deriving DecidableEq, Repr

/-- How Run exits: normally with nil, with a non-nil error, or by a runtime
panic from dereferencing a nil namespace pointer at the defer statement. -/
inductive Outcome where
  | ok
  | error (e : GoError)
  | panicNilDeref
deriving DecidableEq, Repr

/-- The tracer start loop of Run: for each tracer, call Start, register the
deferred Cleanup then the deferred Stop (so Stop unwinds first), and stop
iterating on the first Start error, as the Go loop returns there. i is the
position of the current tracer, ev the events emitted so far, df the defer
stack with the most recently registered call first. -/
def runStartLoop (env : RunEnv) : Nat → List KStracer → List Event → List Event →
    List Event × List Event × Option GoError
  | _, [], ev, df => (ev, df, none)
  | i, _ :: rest, ev, df =>
    let r := env.startErr i
    let ev2 := ev ++ [Event.startTracer i r]
    let df2 := Event.stopTracer i (env.stopErr i) ::
      Event.cleanupTracer i (env.cleanupErr i) :: df
    match r with
    | some e => (ev2, df2, some e)
    | none => runStartLoop env (i + 1) rest ev2 df2

/-- Construction events for the tracer list, one per tracer with its
position. -/
def constructEvents (i : Nat) : List KStracer → List Event
  | [] => []
  | t :: rest => Event.newTracer i t :: constructEvents (i + 1) rest

/-- Modelled from Run in cmd.go. The steps, in source order: call
CreateNamespace; register the deferred CleanupNamespace — evaluating
ns.Name at the defer statement, which panics if the returned namespace
pointer is nil; return the creation error if any; run the tracer
construction loop; run the start loop; unwind the defer stack on every
return path. -/
def RunExec (kCmd : KubeStraceCmd) (traceTimeout : Int) (pods : List Pod)
    (env : RunEnv) : List Event × Outcome :=
  let nsOpt := env.nsCreate.1
  let nsErr := env.nsCreate.2
  let ev0 := [Event.createNamespace nsOpt nsErr]
  match nsOpt with
  | none => (ev0, Outcome.panicNilDeref)
  | some nsName =>
    let df0 := [Event.cleanupNamespace nsName env.cleanupNsErr]
    match nsErr with
    | some e => (ev0 ++ df0, Outcome.error e)
    | none =>
      let tracers := runConstruct kCmd traceTimeout nsName pods
      let ev1 := ev0 ++ constructEvents 0 tracers
      let r := runStartLoop env 0 tracers ev1 df0
      match r.2.2 with
      | some e => (r.1 ++ r.2.1, Outcome.error e)
      | none => (r.1 ++ r.2.1, Outcome.ok)

/-- Modelled from the RunE closure in NewKubeStraceCommand: Complete, then
Validate, then Run, each short-circuiting on error. completeErr is the
result of the external configuration steps in Complete. -/
def RunE (completeErr : Option GoError) (kCmd : KubeStraceCmd)
    (items : List VisitItem) (env : RunEnv) : List Event × Outcome :=
  match completeErr with
  | some e => ([], Outcome.error e)
  | none =>
    match Validate kCmd items with
    | Except.error e => ([], Outcome.error e)
    | Except.ok (pods, traceTimeout) => RunExec kCmd traceTimeout pods env

/-! ### Trace shapes

Derived descriptions of the event trace that Run produces, used to state
the ordering claims. -/

/-- The consecutive indices s, s+1, ..., s+n-1. -/
def idxRange (s : Nat) : Nat → List Nat
  | 0 => []
  | n + 1 => s :: idxRange (s + 1) n

/-- The positions of the tracers whose Start the loop invokes, in start
order, when the loop begins at position i with n tracers remaining: the
loop stops right after the first failing Start. -/
def startedIdxsFrom (env : RunEnv) (i : Nat) : Nat → List Nat
  | 0 => []
  | n + 1 =>
    if (env.startErr i).isSome then [i]
    else i :: startedIdxsFrom env (i + 1) n

/-- The error value the start loop returns: the first Start error, if any. -/
def loopResFrom (env : RunEnv) (i : Nat) : Nat → Option GoError
  | 0 => none
  | n + 1 =>
    match env.startErr i with
    | some e => some e
    | none => loopResFrom env (i + 1) n

/-- Start events for the given tracer positions, in that order. -/
def startEvents (env : RunEnv) (idxs : List Nat) : List Event :=
  idxs.map fun i => Event.startTracer i (env.startErr i)

/-- The teardown segment of the trace: for the started tracers in REVERSE
start order, a Stop event followed by a Cleanup event. This is the order
the required teardown discipline prescribes; the theorems below prove the
unwound defer stack equals it. -/
def teardownEvents (env : RunEnv) (idxs : List Nat) : List Event :=
  idxs.reverse.flatMap fun i =>
    [Event.stopTracer i (env.stopErr i), Event.cleanupTracer i (env.cleanupErr i)]

/-- The outcome Run derives from the start loop result. -/
def outcomeOf : Option GoError → Outcome
  | some e => Outcome.error e
  | none => Outcome.ok

/-- Validation behaviour the claim about directory destinations describes:
no console cardinality checks, only the zero-target check and the timeout
parse. Stated from the claim, to be compared against Validate. -/
def validateDirectoryMode (kCmd : KubeStraceCmd) (items : List VisitItem) :
    Except GoError (List Pod × Int) :=
  match processResources items with
  | (_, some e) => Except.error e
  | (targetPods, none) =>
    match targetPods with
    | [] => Except.error GoError.noTargetPod
    | p :: rest =>
      match ParseDuration kCmd.traceTimeoutStr with
      | Except.error e => Except.error e
      | Except.ok d => Except.ok (p :: rest, d)

/-! ### Concrete fixtures for witnesses and counterexamples -/

/-- A single-container pod. -/
def podA : Pod := ⟨"pod-a", "default", "node-1", [⟨"app"⟩]⟩

/-- A two-container pod. -/
def podB : Pod := ⟨"pod-b", "default", "node-1", [⟨"app"⟩, ⟨"sidecar"⟩]⟩

/-- A second single-container pod. -/
def podC : Pod := ⟨"pod-c", "default", "node-2", [⟨"app"⟩]⟩

/-- The default flag values of NewKubeStraceDefaults. -/
def kCmdDefault : KubeStraceCmd :=
  ⟨"quay.io/mwasher/crictl:0.0.2", "/run/crio/crio.sock", "0", "strace-collection"⟩

/-- Default flags with the trace timeout set to a negative duration. -/
def kCmdNegTimeout : KubeStraceCmd :=
  ⟨"quay.io/mwasher/crictl:0.0.2", "/run/crio/crio.sock", "-5s", "strace-collection"⟩

/-- Default flags with the console output sentinel. -/
def kCmdConsole : KubeStraceCmd :=
  ⟨"quay.io/mwasher/crictl:0.0.2", "/run/crio/crio.sock", "0", "-"⟩

/-- An environment in which every external call succeeds. -/
def envAllOk : RunEnv :=
  ⟨(some "kstrace-ns", none), fun _ => none, fun _ => none, fun _ => none, none⟩

/-- An environment in which the run itself succeeds but every deferred
cleanup call fails. -/
def envCleanupFails : RunEnv :=
  ⟨(some "kstrace-ns", none), fun _ => none,
    fun _ => some (GoError.external "stop failed"),
    fun _ => some (GoError.external "cleanup failed"),
    some (GoError.external "namespace delete failed")⟩

/-- An environment in which the Start of the tracer at position 1 fails. -/
def envStartFail1 : RunEnv :=
  ⟨(some "kstrace-ns", none),
    fun i => if i = 1 then some (GoError.external "cannot schedule") else none,
    fun _ => none, fun _ => none, none⟩

/-- An environment in which CreateNamespace returns a non-nil namespace
together with an error. -/
def envNsErr : RunEnv :=
  ⟨(some "kstrace-ns", some (GoError.external "namespaces is forbidden")),
    fun _ => none, fun _ => none, fun _ => none, none⟩

/-- An environment in which CreateNamespace returns a nil namespace pointer
together with an error. -/
def envNsNil : RunEnv :=
  ⟨(none, some (GoError.external "namespaces is forbidden")),
    fun _ => none, fun _ => none, fun _ => none, none⟩

/-! ### Helper lemmas -/

/-- Prepending a started index to the teardown list appends its Stop and
Cleanup events at the end, since teardown runs in reverse start order. -/
theorem teardownEvents_cons (env : RunEnv) (i : Nat) (l : List Nat) :
    teardownEvents env (i :: l) =
      teardownEvents env l ++
        [Event.stopTracer i (env.stopErr i), Event.cleanupTracer i (env.cleanupErr i)] := by
  simp [teardownEvents]

/-- Characterization of the start loop: the events it emits are the Start
events of the started positions in order, the defer stack it builds unwinds
to the reverse-order teardown list, and its result is the first Start
error. -/
theorem runStartLoop_eq (env : RunEnv) :
    ∀ (ts : List KStracer) (i : Nat) (ev df : List Event),
      runStartLoop env i ts ev df =
        (ev ++ startEvents env (startedIdxsFrom env i ts.length),
         teardownEvents env (startedIdxsFrom env i ts.length) ++ df,
         loopResFrom env i ts.length) := by
  intro ts
  induction ts with
  | nil =>
    intro i ev df
    simp [runStartLoop, startedIdxsFrom, startEvents, teardownEvents, loopResFrom]
  | cons t rest ih =>
    intro i ev df
    cases h : env.startErr i with
    | some e =>
      simp [runStartLoop, h, startedIdxsFrom, startEvents, loopResFrom,
        teardownEvents]
    | none =>
      simp only [runStartLoop, h]
      rw [ih]
      simp [startedIdxsFrom, h, startEvents, loopResFrom, teardownEvents_cons,
        List.append_assoc]

/-- Shape of the full Run trace when namespace creation succeeds: creation,
construction, starts in order, teardown in reverse order, namespace cleanup
last; the outcome is determined by the first Start error alone. -/
theorem runExec_shape (kCmd : KubeStraceCmd) (tt : Int) (pods : List Pod)
    (env : RunEnv) (nsName : String) (h : env.nsCreate = (some nsName, none)) :
    RunExec kCmd tt pods env =
      (Event.createNamespace (some nsName) none ::
        (constructEvents 0 (runConstruct kCmd tt nsName pods) ++
          (startEvents env (startedIdxsFrom env 0 pods.length) ++
            (teardownEvents env (startedIdxsFrom env 0 pods.length) ++
              [Event.cleanupNamespace nsName env.cleanupNsErr]))),
       outcomeOf (loopResFrom env 0 pods.length)) := by
  unfold RunExec
  rw [h]
  simp only []
  have hlen : (runConstruct kCmd tt nsName pods).length = pods.length := by
    simp [runConstruct]
  rw [runStartLoop_eq, hlen]
  cases hres : loopResFrom env 0 pods.length with
  | some e => simp [outcomeOf, List.append_assoc]
  | none => simp [outcomeOf, List.append_assoc]

/-- Membership in a consecutive index range. -/
theorem mem_idxRange : ∀ (n s j : Nat), j ∈ idxRange s n ↔ s ≤ j ∧ j < s + n := by
  intro n
  induction n with
  | zero => intro s j; simp [idxRange]
  | succ m ih =>
    intro s j
    simp [idxRange, ih (s + 1) j]
    omega

/-- When every Start succeeds, the start loop reports no error. -/
theorem loopResFrom_allNone (env : RunEnv) :
    ∀ (n s : Nat), (∀ j, j < n → env.startErr (s + j) = none) →
      loopResFrom env s n = none := by
  intro n
  induction n with
  | zero => intro s _; rfl
  | succ m ih =>
    intro s h
    have h0 : env.startErr s = none := by simpa using h 0 (by omega)
    rw [loopResFrom, h0]
    refine ih (s + 1) (fun j hj => ?hj)
    have h2 : s + 1 + j = s + (j + 1) := by omega
    rw [h2]
    exact h (j + 1) (by omega)

/-- When the first failing Start is at offset i, the started positions are
exactly the first i+1 of them and the loop reports that error. -/
theorem startedIdxsFrom_firstFail (env : RunEnv) (e : GoError) :
    ∀ (i s n : Nat), i < n →
      (∀ j, j < i → env.startErr (s + j) = none) →
      env.startErr (s + i) = some e →
      startedIdxsFrom env s n = idxRange s (i + 1) ∧ loopResFrom env s n = some e := by
  intro i
  induction i with
  | zero =>
    intro s n hn _ hsome
    cases n with
    | zero => omega
    | succ m =>
      have hs : env.startErr s = some e := by simpa using hsome
      constructor
      · rw [startedIdxsFrom, hs]; rfl
      · rw [loopResFrom, hs]
  | succ k ih =>
    intro s n hn hnone hsome
    cases n with
    | zero => omega
    | succ m =>
      have h0 : env.startErr s = none := by simpa using hnone 0 (by omega)
      have ihr := ih (s + 1) m (by omega)
        (fun j hj => by
          have h2 : s + 1 + j = s + (j + 1) := by omega
          rw [h2]; exact hnone (j + 1) (by omega))
        (by
          have h2 : s + 1 + k = s + (k + 1) := by omega
          rw [h2]; exact hsome)
      constructor
      · rw [startedIdxsFrom, h0]
        simp [ihr.1, idxRange]
      · rw [loopResFrom, h0]
        exact ihr.2

/-- The started positions and the loop result depend only on the Start
results, not on the Stop or Cleanup results. -/
theorem startLoopData_congr (env env' : RunEnv) (hse : env'.startErr = env.startErr) :
    ∀ (n s : Nat), startedIdxsFrom env' s n = startedIdxsFrom env s n ∧
      loopResFrom env' s n = loopResFrom env s n := by
  intro n
  induction n with
  | zero => intro s; exact ⟨rfl, rfl⟩
  | succ m ih =>
    intro s
    constructor
    · rw [startedIdxsFrom, startedIdxsFrom, hse, (ih (s + 1)).1]
    · rw [loopResFrom, loopResFrom, hse, (ih (s + 1)).2]

/-- Construction events are construction events only. -/
theorem constructEvents_mem : ∀ (l : List KStracer) (i : Nat) (ev : Event),
    ev ∈ constructEvents i l → ∃ k t, ev = Event.newTracer k t := by
  intro l
  induction l with
  | nil => intro i ev h; simp [constructEvents] at h
  | cons t rest ih =>
    intro i ev h
    rw [constructEvents] at h
    rcases List.mem_cons.mp h with h1 | h2
    · exact ⟨i, t, h1⟩
    · exact ih (i + 1) ev h2

/-- When Validate fails, RunE returns that error with an empty trace: Run is
never entered, so no cluster call of any kind is made. -/
theorem runE_of_validate_error (kCmd : KubeStraceCmd) (items : List VisitItem)
    (env : RunEnv) (e : GoError) (h : Validate kCmd items = Except.error e) :
    RunE none kCmd items env = ([], Outcome.error e) := by
  unfold RunE
  rw [h]

/-- When the items contain a non-Pod object and no upstream visit error, the
visitor stops at some unsupported-kind error. -/
theorem visitAll_unsupported : ∀ (items : List VisitItem) (acc : List Pod) (gvk : String),
    (∀ it ∈ items, VisitItem.isObj it = true) →
    VisitItem.obj (ResolvedObj.other gvk) ∈ items →
    ∃ g acc2, visitAll acc items = (acc2, some (GoError.unsupportedKind g)) := by
  intro items
  induction items with
  | nil => intro acc gvk _ hm; simp at hm
  | cons it rest ih =>
    intro acc gvk hobj hm
    match it with
    | VisitItem.visitErr e =>
      exact absurd (hobj _ (List.mem_cons_self _ _)) (by simp [VisitItem.isObj])
    | VisitItem.obj (ResolvedObj.other g) =>
      exact ⟨g, acc, by simp [visitAll]⟩
    | VisitItem.obj (ResolvedObj.pod q) =>
      have hm2 : VisitItem.obj (ResolvedObj.other gvk) ∈ rest := by
        rcases List.mem_cons.mp hm with h | h
        · simp at h
        · exact h
      rcases ih (acc ++ [q]) gvk (fun x hx => hobj x (List.mem_cons_of_mem _ hx)) hm2
        with ⟨g, acc2, hva⟩
      exact ⟨g, acc2, by simp [visitAll, hva]⟩

/-! ### The claims -/

/-- Claim C1. The claim states that Run constructs exactly N Tracers, one
per target, the i-th holding a reference to the i-th target pod at the time
its Start is invoked, distinct Tracers referencing distinct targets. The
count is right, but the reference part fails on the code: every NewKStracer
call receives the address of the one range-loop variable, so at Start time
every Tracer references the LAST target pod. Evaluated here at the failing
input of two distinct pods: two Tracers are constructed and both reference
pod-c, although the targets pod-a and pod-c are distinct. -/
theorem claim_C1_tracer_aliasing :
    (runConstruct kCmdDefault 0 "kstrace-ns" [podA, podC]).length = 2 ∧
    ((runConstruct kCmdDefault 0 "kstrace-ns" [podA, podC]).map
        (tracerTargetAtStart [podA, podC])) = [some podC, some podC] ∧
    podA ≠ podC := by
  refine ⟨rfl, rfl, ?ne⟩
  decide

/-- Claim C2, counterexample. The claim states that Validate returns an
error for every trace-timeout string denoting a negative duration, naming
"-5s". On the code, Validate succeeds on "-5s" with an otherwise-valid
single-target input and stores the negative duration -5000000000 ns. -/
theorem claim_C2_counterexample :
    Validate kCmdNegTimeout [VisitItem.obj (ResolvedObj.pod podA)] =
      Except.ok ([podA], -5000000000) ∧ (-5000000000 : Int) < 0 :=
  ⟨rfl, by decide⟩

/-- Claim C2, amended. Validate succeeds exactly when resolution yields at
least one pod, the console cardinality checks pass, and the trace-timeout
string parses as a Go duration — with no sign condition, so negative
durations are accepted and the duration held when Run executes may be
negative. -/
theorem claim_C2_amended_sign_unchecked (kCmd : KubeStraceCmd)
    (items : List VisitItem) (pods : List Pod) (d : Int) :
    Validate kCmd items = Except.ok (pods, d) ↔
      ∃ p rest, pods = p :: rest ∧
        processResources items = (p :: rest, none) ∧
        ¬(1 < (p :: rest).length ∧ kCmd.outputDirectory = "-") ∧
        ¬(1 < p.containers.length ∧ kCmd.outputDirectory = "-") ∧
        ParseDuration kCmd.traceTimeoutStr = Except.ok d := by
  unfold Validate
  rcases hpr : processResources items with ⟨ps, oe⟩
  cases oe with
  | some e =>
    constructor
    · intro h; simp at h
    · rintro ⟨p, rest, rfl, hpr2, -, -, -⟩
      simp at hpr2
  | none =>
    cases ps with
    | nil =>
      constructor
      · intro h; simp at h
      · rintro ⟨p, rest, rfl, hpr2, -, -, -⟩
        simp at hpr2
    | cons p rest =>
      dsimp only
      by_cases h1 : 1 < (p :: rest).length ∧ kCmd.outputDirectory = "-"
      · rw [if_pos h1]
        constructor
        · intro h; simp at h
        · rintro ⟨p2, rest2, rfl, hpr2, hn1, -, -⟩
          simp only [Prod.mk.injEq, List.cons.injEq, and_true] at hpr2
          obtain ⟨hp, hr⟩ := hpr2
          subst hp; subst hr
          exact absurd h1 hn1
      · rw [if_neg h1]
        by_cases h2 : 1 < p.containers.length ∧ kCmd.outputDirectory = "-"
        · rw [if_pos h2]
          constructor
          · intro h; simp at h
          · rintro ⟨p2, rest2, rfl, hpr2, -, hn2, -⟩
            simp only [Prod.mk.injEq, List.cons.injEq, and_true] at hpr2
            obtain ⟨hp, hr⟩ := hpr2
            subst hp; subst hr
            exact absurd h2 hn2
        · rw [if_neg h2]
          cases hpd : ParseDuration kCmd.traceTimeoutStr with
          | error e2 =>
            constructor
            · intro h; simp at h
            · rintro ⟨p2, rest2, rfl, hpr2, -, -, hpd2⟩
              simp at hpd2
          | ok d2 =>
            constructor
            · intro h
              simp only [Except.ok.injEq, Prod.mk.injEq] at h
              obtain ⟨hpods, hd⟩ := h
              subst hpods; subst hd
              exact ⟨p, rest, rfl, rfl, h1, h2, rfl⟩
            · rintro ⟨p2, rest2, rfl, hpr2, -, -, hpd2⟩
              simp only [Prod.mk.injEq, List.cons.injEq, and_true] at hpr2
              obtain ⟨hp, hr⟩ := hpr2
              subst hp; subst hr
              simp only [Except.ok.injEq] at hpd2
              subst hpd2
              rfl

/-- Witness for the amended claim C2, at the concrete negative-duration
input of the counterexample. -/
theorem claim_C2_amended_witness :
    Validate kCmdNegTimeout [VisitItem.obj (ResolvedObj.pod podA)] =
        Except.ok ([podA], -5000000000) ↔
      ∃ p rest, ([podA] : List Pod) = p :: rest ∧
        processResources [VisitItem.obj (ResolvedObj.pod podA)] = (p :: rest, none) ∧
        ¬(1 < (p :: rest).length ∧ kCmdNegTimeout.outputDirectory = "-") ∧
        ¬(1 < p.containers.length ∧ kCmdNegTimeout.outputDirectory = "-") ∧
        ParseDuration kCmdNegTimeout.traceTimeoutStr = Except.ok (-5000000000) :=
  claim_C2_amended_sign_unchecked kCmdNegTimeout
    [VisitItem.obj (ResolvedObj.pod podA)] [podA] (-5000000000)

/-- Claim C3: on every exit from Run after namespace creation succeeded, the
trace is creation, construction, the Start calls in order, then for each
started Tracer in reverse start order a Stop event followed by a Cleanup
event, and the namespace cleanup strictly last — teardown is reverse of
start, Stop precedes Cleanup per Tracer, and CleanupNamespace runs only
after all Tracer Stop and Cleanup calls. -/
theorem claim_C3_teardown_order (kCmd : KubeStraceCmd) (tt : Int) (pods : List Pod)
    (env : RunEnv) (nsName : String) (h : env.nsCreate = (some nsName, none)) :
    (RunExec kCmd tt pods env).1 =
      Event.createNamespace (some nsName) none ::
        (constructEvents 0 (runConstruct kCmd tt nsName pods) ++
          (startEvents env (startedIdxsFrom env 0 pods.length) ++
            (teardownEvents env (startedIdxsFrom env 0 pods.length) ++
              [Event.cleanupNamespace nsName env.cleanupNsErr]))) := by
  rw [runExec_shape kCmd tt pods env nsName h]

/-- Witness for claim C3 at a concrete two-target run with all calls
succeeding. -/
theorem claim_C3_witness :
    (RunExec kCmdDefault 0 [podA, podC] envAllOk).1 =
      Event.createNamespace (some "kstrace-ns") none ::
        (constructEvents 0 (runConstruct kCmdDefault 0 "kstrace-ns" [podA, podC]) ++
          (startEvents envAllOk (startedIdxsFrom envAllOk 0 2) ++
            (teardownEvents envAllOk (startedIdxsFrom envAllOk 0 2) ++
              [Event.cleanupNamespace "kstrace-ns" none]))) :=
  claim_C3_teardown_order kCmdDefault 0 [podA, podC] envAllOk "kstrace-ns" rfl

/-- Claim C4: when the Start of the Tracer at position i fails, Run returns
that error, no Start event with a later position appears in the trace, and
for every position up to and including i the trace contains its Stop and
its Cleanup event. -/
theorem claim_C4_start_failure (kCmd : KubeStraceCmd) (tt : Int) (pods : List Pod)
    (env : RunEnv) (nsName : String) (i : Nat) (e : GoError)
    (hns : env.nsCreate = (some nsName, none))
    (hi : i < pods.length)
    (hprev : ∀ j, j < i → env.startErr j = none)
    (hfail : env.startErr i = some e) :
    (RunExec kCmd tt pods env).2 = Outcome.error e ∧
    (∀ j r, Event.startTracer j r ∈ (RunExec kCmd tt pods env).1 → j ≤ i) ∧
    (∀ j, j ≤ i →
      Event.stopTracer j (env.stopErr j) ∈ (RunExec kCmd tt pods env).1 ∧
      Event.cleanupTracer j (env.cleanupErr j) ∈ (RunExec kCmd tt pods env).1) := by
  have hff := startedIdxsFrom_firstFail env e i 0 pods.length hi
    (fun j hj => by simpa using hprev j hj) (by simpa using hfail)
  rw [runExec_shape kCmd tt pods env nsName hns]
  rw [hff.1, hff.2]
  refine ⟨rfl, ?noLater, ?teardownAll⟩
  · intro j r hmem
    rcases List.mem_cons.mp hmem with h | h
    · simp at h
    rcases List.mem_append.mp h with h | h
    · rcases constructEvents_mem _ _ _ h with ⟨k, t, hk⟩
      simp at hk
    rcases List.mem_append.mp h with h | h
    · rcases List.mem_map.mp h with ⟨a, ha, hae⟩
      have haj : a = j := by
        injection hae
      subst haj
      have := (mem_idxRange (i + 1) 0 a).mp ha
      omega
    rcases List.mem_append.mp h with h | h
    · rcases List.mem_flatMap.mp h with ⟨a, ha, hae⟩
      simp at hae
    · simp at h
  · intro j hj
    have hjmem : j ∈ (idxRange 0 (i + 1)).reverse := by
      rw [List.mem_reverse]
      exact (mem_idxRange (i + 1) 0 j).mpr ⟨by omega, by omega⟩
    constructor
    · refine List.mem_cons_of_mem _ (List.mem_append_right _
        (List.mem_append_right _ (List.mem_append_left _ ?m1)))
      unfold teardownEvents
      exact List.mem_flatMap.mpr ⟨j, hjmem, by simp⟩
    · refine List.mem_cons_of_mem _ (List.mem_append_right _
        (List.mem_append_right _ (List.mem_append_left _ ?m2)))
      unfold teardownEvents
      exact List.mem_flatMap.mpr ⟨j, hjmem, by simp⟩

/-- Witness for claim C4: three targets, the second Start fails; Run errors
with that failure, the failing Tracer is stopped and the first is cleaned. -/
theorem claim_C4_witness :
    (RunExec kCmdDefault 0 [podA, podC, podA] envStartFail1).2 =
        Outcome.error (GoError.external "cannot schedule") ∧
      Event.stopTracer 1 none ∈ (RunExec kCmdDefault 0 [podA, podC, podA] envStartFail1).1 ∧
      Event.cleanupTracer 0 none ∈ (RunExec kCmdDefault 0 [podA, podC, podA] envStartFail1).1 := by
  have h := claim_C4_start_failure kCmdDefault 0 [podA, podC, podA] envStartFail1
    "kstrace-ns" 1 (GoError.external "cannot schedule") rfl (by decide)
    (fun j hj => by
      have hj0 : j = 0 := by omega
      subst hj0
      rfl)
    rfl
  exact ⟨h.1, (h.2.2 1 (Nat.le_refl 1)).1, (h.2.2 0 (by omega)).2⟩

/-- Claim C5: with console destination and either several target pods or a
single target pod with several containers, Validate returns an error and
RunE propagates it with an empty trace — Run never executes and no helper
pod is created. -/
theorem claim_C5_console_cardinality (kCmd : KubeStraceCmd) (items : List VisitItem)
    (p : Pod) (rest : List Pod) (env : RunEnv)
    (hpr : processResources items = (p :: rest, none))
    (hdir : kCmd.outputDirectory = "-")
    (hcard : rest ≠ [] ∨ (rest = [] ∧ 1 < p.containers.length)) :
    ∃ e, Validate kCmd items = Except.error e ∧
      RunE none kCmd items env = ([], Outcome.error e) := by
  have hval : ∃ e, Validate kCmd items = Except.error e := by
    unfold Validate
    rw [hpr]
    dsimp only
    rcases hcard with hmulti | ⟨hone, hcont⟩
    · have h1 : 1 < (p :: rest).length ∧ kCmd.outputDirectory = "-" := by
        have := List.length_pos.mpr hmulti
        exact ⟨by simp; omega, hdir⟩
      rw [if_pos h1]
      exact ⟨GoError.multipleTargetsConsole, rfl⟩
    · subst hone
      have h1 : ¬(1 < ([p] : List Pod).length ∧ kCmd.outputDirectory = "-") := by
        simp
      rw [if_neg h1, if_pos ⟨hcont, hdir⟩]
      exact ⟨GoError.multipleContainersConsole p.name, rfl⟩
  rcases hval with ⟨e, he⟩
  exact ⟨e, he, runE_of_validate_error kCmd items env e he⟩

/-- Witness for claim C5 at two single-container targets with console
output. -/
theorem claim_C5_witness :
    ∃ e, Validate kCmdConsole
        [VisitItem.obj (ResolvedObj.pod podA), VisitItem.obj (ResolvedObj.pod podC)] =
        Except.error e ∧
      RunE none kCmdConsole
        [VisitItem.obj (ResolvedObj.pod podA), VisitItem.obj (ResolvedObj.pod podC)]
        envAllOk = ([], Outcome.error e) :=
  claim_C5_console_cardinality kCmdConsole
    [VisitItem.obj (ResolvedObj.pod podA), VisitItem.obj (ResolvedObj.pod podC)]
    podA [podC] envAllOk rfl rfl (Or.inl (by decide))

/-- Claim C6: when Validate fails, the command returns that error with an
empty trace — Run is not invoked, no namespace and no helper pod is
created, so no cleanup is needed. -/
theorem claim_C6_error_short_circuits (kCmd : KubeStraceCmd) (items : List VisitItem)
    (env : RunEnv) (e : GoError) (h : Validate kCmd items = Except.error e) :
    RunE none kCmd items env = ([], Outcome.error e) :=
  runE_of_validate_error kCmd items env e h

/-- Witness for claim C6 at the zero-target input. -/
theorem claim_C6_witness :
    RunE none kCmdDefault [] envAllOk = ([], Outcome.error GoError.noTargetPod) :=
  claim_C6_error_short_circuits kCmdDefault [] envAllOk GoError.noTargetPod rfl

/-- Claim C7: the error Run returns is independent of the deferred Stop,
Cleanup and CleanupNamespace results. When namespace creation and every
Start succeed, Run returns nil whatever the cleanup results are (the
environment here is unconstrained in them); and two environments agreeing
on creation and Start results yield the same outcome. -/
theorem claim_C7_cleanup_result_ignored (kCmd : KubeStraceCmd) (tt : Int)
    (pods : List Pod) (env : RunEnv) (nsName : String)
    (hns : env.nsCreate = (some nsName, none)) :
    ((∀ j, j < pods.length → env.startErr j = none) →
      (RunExec kCmd tt pods env).2 = Outcome.ok) ∧
    (∀ env' : RunEnv, env'.nsCreate = env.nsCreate → env'.startErr = env.startErr →
      (RunExec kCmd tt pods env').2 = (RunExec kCmd tt pods env).2) := by
  constructor
  · intro hall
    rw [runExec_shape kCmd tt pods env nsName hns]
    rw [loopResFrom_allNone env pods.length 0 (fun j hj => by simpa using hall j hj)]
    rfl
  · intro env' h1 h2
    rw [runExec_shape kCmd tt pods env nsName hns,
      runExec_shape kCmd tt pods env' nsName (by rw [h1, hns])]
    rw [(startLoopData_congr env env' h2 pods.length 0).2]

/-- Witness for claim C7: a run in which every deferred cleanup call fails
still returns nil. -/
theorem claim_C7_witness :
    (RunExec kCmdDefault 0 [podA, podC] envCleanupFails).2 = Outcome.ok :=
  (claim_C7_cleanup_result_ignored kCmdDefault 0 [podA, podC] envCleanupFails
    "kstrace-ns" rfl).1 (fun _ _ => rfl)

/-- Claim C8: when some resolved object is not a Pod, processResources
returns the empty slice together with an unsupported-kind error naming the
object kind, and Validate propagates exactly that error. -/
theorem claim_C8_unsupported_kind (items : List VisitItem) (gvk : String)
    (kCmd : KubeStraceCmd)
    (hobj : ∀ it ∈ items, VisitItem.isObj it = true)
    (hm : VisitItem.obj (ResolvedObj.other gvk) ∈ items) :
    ∃ g, processResources items = ([], some (GoError.unsupportedKind g)) ∧
      Validate kCmd items = Except.error (GoError.unsupportedKind g) := by
  rcases visitAll_unsupported items [] gvk hobj hm with ⟨g, acc2, hva⟩
  have hpr : processResources items = ([], some (GoError.unsupportedKind g)) := by
    unfold processResources
    rw [hva]
  refine ⟨g, hpr, ?hv⟩
  unfold Validate
  rw [hpr]

/-- Witness for claim C8 at a pod followed by a deployment. -/
theorem claim_C8_witness :
    ∃ g, processResources
        [VisitItem.obj (ResolvedObj.pod podA),
         VisitItem.obj (ResolvedObj.other "apps/v1, Kind=Deployment")] =
        ([], some (GoError.unsupportedKind g)) ∧
      Validate kCmdDefault
        [VisitItem.obj (ResolvedObj.pod podA),
         VisitItem.obj (ResolvedObj.other "apps/v1, Kind=Deployment")] =
        Except.error (GoError.unsupportedKind g) :=
  claim_C8_unsupported_kind
    [VisitItem.obj (ResolvedObj.pod podA),
     VisitItem.obj (ResolvedObj.other "apps/v1, Kind=Deployment")]
    "apps/v1, Kind=Deployment" kCmdDefault (by decide) (by decide)

/-- Claim C9: the deferred CleanupNamespace is registered before the
CreateNamespace error check, so when creation fails with a non-nil
namespace, Run returns the error after a trace of exactly the creation and
the namespace cleanup — no Tracer is constructed; and when the returned
namespace is nil, the ns.Name dereference at the defer statement panics,
so the dereference is safe only when a namespace accompanies the error. -/
theorem claim_C9_deferred_cleanup_nil_hazard (kCmd : KubeStraceCmd) (tt : Int)
    (pods : List Pod) (env : RunEnv) :
    (∀ nsName e, env.nsCreate = (some nsName, some e) →
      RunExec kCmd tt pods env =
        ([Event.createNamespace (some nsName) (some e),
          Event.cleanupNamespace nsName env.cleanupNsErr], Outcome.error e)) ∧
    (∀ oe, env.nsCreate = (none, oe) →
      RunExec kCmd tt pods env =
        ([Event.createNamespace none oe], Outcome.panicNilDeref)) := by
  constructor
  · intro nsName e h
    unfold RunExec
    rw [h]
    rfl
  · intro oe h
    unfold RunExec
    rw [h]

/-- Witness for claim C9: a failed creation with a namespace still cleans
the namespace up and returns the error; a failed creation with a nil
namespace panics. -/
theorem claim_C9_witness :
    RunExec kCmdDefault 0 [podA] envNsErr =
      ([Event.createNamespace (some "kstrace-ns")
          (some (GoError.external "namespaces is forbidden")),
        Event.cleanupNamespace "kstrace-ns" none],
       Outcome.error (GoError.external "namespaces is forbidden")) ∧
    RunExec kCmdDefault 0 [podA] envNsNil =
      ([Event.createNamespace none (some (GoError.external "namespaces is forbidden"))],
       Outcome.panicNilDeref) :=
  ⟨(claim_C9_deferred_cleanup_nil_hazard kCmdDefault 0 [podA] envNsErr).1
      "kstrace-ns" (GoError.external "namespaces is forbidden") rfl,
   (claim_C9_deferred_cleanup_nil_hazard kCmdDefault 0 [podA] envNsNil).2
      (some (GoError.external "namespaces is forbidden")) rfl⟩

/-- Claim C10: the console destination is selected exactly by the string
"-": for any other output value Validate behaves as the directory-mode
validation with no cardinality checks, and when the value is "-" the
single-target and single-container checks are applied. -/
theorem claim_C10_console_sentinel (kCmd : KubeStraceCmd) (items : List VisitItem) :
    (kCmd.outputDirectory ≠ "-" →
      Validate kCmd items = validateDirectoryMode kCmd items) ∧
    (∀ p rest, kCmd.outputDirectory = "-" →
      processResources items = (p :: rest, none) →
      (rest ≠ [] → Validate kCmd items = Except.error GoError.multipleTargetsConsole) ∧
      (rest = [] → 1 < p.containers.length →
        Validate kCmd items = Except.error (GoError.multipleContainersConsole p.name))) := by
  constructor
  · intro hne
    unfold Validate validateDirectoryMode
    rcases hpr : processResources items with ⟨ps, oe⟩
    cases oe with
    | some e => rfl
    | none =>
      cases ps with
      | nil => rfl
      | cons p rest =>
        dsimp only
        rw [if_neg (by simp [hne]), if_neg (by simp [hne])]
  · intro p rest hdir hpr
    constructor
    · intro hrest
      unfold Validate
      rw [hpr]
      dsimp only
      rw [if_pos ⟨by have := List.length_pos.mpr hrest; simp; omega, hdir⟩]
    · intro hrest hcont
      subst hrest
      unfold Validate
      rw [hpr]
      dsimp only
      rw [if_neg (by simp), if_pos ⟨hcont, hdir⟩]

/-- Witness for claim C10: the default directory value skips the cardinality
checks even for a two-container pod, and the console value rejects it. -/
theorem claim_C10_witness :
    Validate kCmdDefault [VisitItem.obj (ResolvedObj.pod podB)] =
      validateDirectoryMode kCmdDefault [VisitItem.obj (ResolvedObj.pod podB)] ∧
    Validate kCmdConsole [VisitItem.obj (ResolvedObj.pod podB)] =
      Except.error (GoError.multipleContainersConsole "pod-b") := by
  constructor
  · exact (claim_C10_console_sentinel kCmdDefault
      [VisitItem.obj (ResolvedObj.pod podB)]).1 (by decide)
  · exact ((claim_C10_console_sentinel kCmdConsole
      [VisitItem.obj (ResolvedObj.pod podB)]).2 podB [] rfl rfl).2 rfl (by decide)

end Kstrace
